import Mathlib

/-!
Shallow embedding of the LifeStream organ-allocation engine
(src/src/App.tsx, server part) and verification of its specified
properties.

Storage is modelled as four relations mirroring the CREATE TABLE
statements in initDb (App.tsx, around lines 1170-1205): users, organs,
organ_requests, matches.  Those tables declare no UNIQUE, CHECK or
FOREIGN KEY constraints (and better-sqlite3 leaves foreign-key
enforcement off), so none of the INSERT/UPDATE statements issued by the
routes below can fail; the catch branches of the route handlers are
therefore unreachable and every embedded write operation returns its
success value unconditionally.  Timestamp columns (date_added,
date_requested, matched_on) are omitted: no route logic modelled here
reads them.  AUTOINCREMENT primary keys are modelled by explicit
next-id counters in the storage state.
-/

namespace LifeStream

/-- Row of the users table: id, name, blood_group, role (password, age,
gender, contact are never read by the allocation engine and are
omitted). -/
structure UserRow where
  id : Nat
  name : String
  blood_group : String
  role : String
deriving DecidableEq, Repr

/-- Row of the organs table: id, organ_type, blood_group, donor_id,
availability_status (DEFAULT AVAILABLE). -/
structure OrganRow where
  id : Nat
  organ_type : String
  blood_group : String
  donor_id : Nat
  availability_status : String
deriving DecidableEq, Repr

/-- Row of the organ_requests table: id, recipient_id, organ_type,
blood_group, urgency_level, status (DEFAULT PENDING), admin_note. -/
structure RequestRow where
  id : Nat
  recipient_id : Nat
  organ_type : String
  blood_group : String
  urgency_level : String
  status : String
  admin_note : Option String
deriving DecidableEq, Repr

/-- Row of the matches table: id, donor_id, recipient_id, organ_id,
request_id, organ_type, status. -/
structure MatchRow where
  id : Nat
  donor_id : Nat
  recipient_id : Nat
  organ_id : Nat
  request_id : Nat
  organ_type : String
  status : String
deriving DecidableEq, Repr

/-- The persistent storage: the four relations plus the AUTOINCREMENT
counters for organs, organ_requests and matches.  The matches table is
held in the field match_rows because matches is a reserved word in
Lean. -/
structure Storage where
  users : List UserRow
  organs : List OrganRow
  organ_requests : List RequestRow
  match_rows : List MatchRow
  nextOrganId : Nat
  nextRequestId : Nat
  nextMatchId : Nat
deriving DecidableEq, Repr

/-- Storage with all four tables empty and counters at 1. -/
def emptyStorage : Storage :=
  { users := [], organs := [], organ_requests := [], match_rows := []
    nextOrganId := 1, nextRequestId := 1, nextMatchId := 1 }

/-- Embedding of the bloodCompatibility record literal inside the
suggestion route (App.tsx lines 1437-1446) together with the
`bloodCompatibility[organ.donor_blood_group] || []` lookup of line
1447: a donor group maps to the listed recipient groups, any other
string maps to the empty list. -/
def bloodCompatibility (g : String) : List String :=
  if g = "O-" then ["O-", "O+", "A-", "A+", "B-", "B+", "AB-", "AB+"]
  else if g = "O+" then ["O+", "A+", "B+", "AB+"]
  else if g = "A-" then ["A-", "A+", "AB-", "AB+"]
  else if g = "A+" then ["A+", "AB+"]
  else if g = "B-" then ["B-", "B+", "AB-", "AB+"]
  else if g = "B+" then ["B+", "AB+"]
  else if g = "AB-" then ["AB-", "AB+"]
  else if g = "AB+" then ["AB+"]
  else []

/-- The eight standard ABO/Rh blood groups, in the order used by the
source table. -/
def validBloodGroups : List String :=
  ["O-", "O+", "A-", "A+", "B-", "B+", "AB-", "AB+"]

/-- Result row of the availableOrgans query in the suggestion route:
organs.* joined with users.name as donor_name and users.blood_group as
donor_blood_group. -/
structure SuggestedOrgan where
  organ : OrganRow
  donor_name : String
  donor_blood_group : String
deriving DecidableEq, Repr

/-- Embedding of
SELECT organs.*, users.name as donor_name, users.blood_group as
donor_blood_group FROM organs JOIN users ON organs.donor_id = users.id
WHERE organ_type = ? AND availability_status = AVAILABLE
(App.tsx lines 1429-1434), split into the per-row step joinDonor and
the filterMap over the organs table.  The inner join keeps one row per
organ whose donor_id matches a user id (ids are primary keys, so at
most one). -/
def joinDonor (users : List UserRow) (t : String) (o : OrganRow) : Option SuggestedOrgan :=
  match users.find? (fun u => u.id == o.donor_id) with
  | some u =>
      if o.organ_type == t && o.availability_status == "AVAILABLE" then
        some { organ := o, donor_name := u.name, donor_blood_group := u.blood_group }
      else none
  | none => none

/-- The full availableOrgans query: the join of the previous definition
applied across the organs table. -/
def availableOrgans (s : Storage) (t : String) : List SuggestedOrgan :=
  s.organs.filterMap (joinDonor s.users t)

/-- Embedding of SELECT * FROM organ_requests WHERE id = ? (App.tsx
line 1426). -/
def findRequest (s : Storage) (rid : Nat) : Option RequestRow :=
  s.organ_requests.find? (fun r => r.id == rid)

/-- Embedding of GET /api/admin/matches/suggest/:requestId (App.tsx
lines 1424-1452): 404 "Request not found" when the request row is
absent, otherwise the available organs of the requested organ type
filtered by blood compatibility of the joined donor blood group. -/
def suggest (s : Storage) (requestId : Nat) : Except String (List SuggestedOrgan) :=
  match findRequest s requestId with
  | none => Except.error "Request not found"
  | some request =>
      Except.ok ((availableOrgans s request.organ_type).filter fun organ =>
        (bloodCompatibility organ.donor_blood_group).contains request.blood_group)

/-- Request body of POST /api/admin/matches (App.tsx line 1455). -/
structure AllocateBody where
  donor_id : Nat
  recipient_id : Nat
  organ_id : Nat
  request_id : Nat
  organ_type : String
deriving DecidableEq, Repr

/-- HTTP outcome of POST /api/admin/matches: res.json with success, or
res.status(400) with an error message when the transaction throws. -/
inductive AllocateResponse where
  | success : AllocateResponse
  | badRequest : String → AllocateResponse
deriving DecidableEq, Repr

/-- Embedding of POST /api/admin/matches (App.tsx lines 1454-1473).
The db.transaction body runs three statements as one atomic unit:
INSERT INTO matches (donor_id, recipient_id, organ_id, request_id,
organ_type, status) VALUES (..., COMPLETED);
UPDATE organs SET availability_status = MATCHED WHERE id = organ_id;
UPDATE organ_requests SET status = APPROVED, admin_note = Matched with
compatible donor WHERE id = request_id.
The handler performs no read and no status or existence check before
writing, and since the schema declares no constraints the transaction
cannot throw, so the embedded call always returns success. -/
def allocate (s : Storage) (b : AllocateBody) : AllocateResponse × Storage :=
  let newMatch : MatchRow :=
    { id := s.nextMatchId, donor_id := b.donor_id, recipient_id := b.recipient_id
      organ_id := b.organ_id, request_id := b.request_id
      organ_type := b.organ_type, status := "COMPLETED" }
  let organs := s.organs.map fun o =>
    if o.id == b.organ_id then { o with availability_status := "MATCHED" } else o
  let organ_requests := s.organ_requests.map fun r =>
    if r.id == b.request_id then
      { r with status := "APPROVED", admin_note := some "Matched with compatible donor" }
    else r
  (AllocateResponse.success,
    { s with match_rows := s.match_rows ++ [newMatch], organs := organs
             organ_requests := organ_requests, nextMatchId := s.nextMatchId + 1 })

/-- Embedding of POST /api/organs (App.tsx lines 1360-1367): INSERT INTO
organs (organ_type, blood_group, donor_id) VALUES (?, ?, ?) with the
authenticated user as donor; availability_status takes its column
default AVAILABLE.  No validation of any field is performed.  Returns
the new row id. -/
def registerOrgan (s : Storage) (organ_type blood_group : String) (userId : Nat) :
    Nat × Storage :=
  (s.nextOrganId,
    { s with
        organs := s.organs ++
          [{ id := s.nextOrganId, organ_type := organ_type, blood_group := blood_group
             donor_id := userId, availability_status := "AVAILABLE" }]
        nextOrganId := s.nextOrganId + 1 })

/-- Embedding of POST /api/requests (App.tsx lines 1371-1378): INSERT
INTO organ_requests (recipient_id, organ_type, blood_group,
urgency_level) VALUES (?, ?, ?, ?); status takes its column default
PENDING and admin_note is NULL.  No validation of any field is
performed.  Returns the new row id. -/
def submitRequest (s : Storage) (userId : Nat)
    (organ_type blood_group urgency_level : String) : Nat × Storage :=
  (s.nextRequestId,
    { s with
        organ_requests := s.organ_requests ++
          [{ id := s.nextRequestId, recipient_id := userId, organ_type := organ_type
             blood_group := blood_group, urgency_level := urgency_level
             status := "PENDING", admin_note := none }]
        nextRequestId := s.nextRequestId + 1 })

/-- Embedding of POST /api/admin/requests/:id/status (App.tsx lines
1417-1422): UPDATE organ_requests SET status = ?, admin_note = ? WHERE
id = ?.  The new status is whatever string the body carries; the
current status is never consulted. -/
def updateRequestStatus (s : Storage) (rid : Nat) (status : String)
    (admin_note : Option String) : Storage :=
  { s with organ_requests := s.organ_requests.map fun r =>
      if r.id == rid then { r with status := status, admin_note := admin_note } else r }

/-! Concrete storage states used as failing inputs and witnesses. -/

/-- Storage holding one donation that is already MATCHED, its completed
match (organ 1, request 1), and a second request still PENDING. -/
def c1State : Storage :=
  { users := [{ id := 1, name := "John Doe", blood_group := "O-", role := "DONOR" },
              { id := 2, name := "Alice Brown", blood_group := "AB+", role := "RECIPIENT" },
              { id := 3, name := "Bob Wilson", blood_group := "B-", role := "RECIPIENT" }]
    organs := [{ id := 1, organ_type := "KIDNEY", blood_group := "O-", donor_id := 1
                 availability_status := "MATCHED" }]
    organ_requests :=
      [{ id := 1, recipient_id := 2, organ_type := "KIDNEY", blood_group := "AB+"
         urgency_level := "CRITICAL", status := "APPROVED"
         admin_note := some "Matched with compatible donor" },
       { id := 2, recipient_id := 3, organ_type := "KIDNEY", blood_group := "B-"
         urgency_level := "HIGH", status := "PENDING", admin_note := none }]
    match_rows := [{ id := 1, donor_id := 1, recipient_id := 2, organ_id := 1
                     request_id := 1, organ_type := "KIDNEY", status := "COMPLETED" }]
    nextOrganId := 2, nextRequestId := 3, nextMatchId := 2 }

/-- Allocation body targeting the already-MATCHED donation 1 for the
still-PENDING request 2. -/
def c1Body : AllocateBody :=
  { donor_id := 1, recipient_id := 3, organ_id := 1, request_id := 2
    organ_type := "KIDNEY" }

/-- Storage holding one AVAILABLE donation and two PENDING requests,
the shape of the lost-update race of the spec. -/
def c2State : Storage :=
  { users := [{ id := 1, name := "John Doe", blood_group := "O-", role := "DONOR" },
              { id := 2, name := "Alice Brown", blood_group := "AB+", role := "RECIPIENT" },
              { id := 3, name := "Bob Wilson", blood_group := "B-", role := "RECIPIENT" }]
    organs := [{ id := 1, organ_type := "KIDNEY", blood_group := "O-", donor_id := 1
                 availability_status := "AVAILABLE" }]
    organ_requests :=
      [{ id := 1, recipient_id := 2, organ_type := "KIDNEY", blood_group := "AB+"
         urgency_level := "CRITICAL", status := "PENDING", admin_note := none },
       { id := 2, recipient_id := 3, organ_type := "KIDNEY", blood_group := "B-"
         urgency_level := "HIGH", status := "PENDING", admin_note := none }]
    match_rows := []
    nextOrganId := 2, nextRequestId := 3, nextMatchId := 1 }

/-- First racing allocation: donation 1 for request 1. -/
def c2BodyA : AllocateBody :=
  { donor_id := 1, recipient_id := 2, organ_id := 1, request_id := 1
    organ_type := "KIDNEY" }

/-- Second racing allocation: the same donation 1 for request 2. -/
def c2BodyB : AllocateBody :=
  { donor_id := 1, recipient_id := 3, organ_id := 1, request_id := 2
    organ_type := "KIDNEY" }

/-- State after the two allocations on the same donation have run in
the order the storage layer serializes them. -/
def c2After : Storage := (allocate (allocate c2State c2BodyA).2 c2BodyB).2

/-- Storage holding one AVAILABLE donation and no request rows at
all. -/
def c4State : Storage :=
  { users := [{ id := 1, name := "John Doe", blood_group := "O-", role := "DONOR" }]
    organs := [{ id := 1, organ_type := "KIDNEY", blood_group := "O-", donor_id := 1
                 availability_status := "AVAILABLE" }]
    organ_requests := [], match_rows := []
    nextOrganId := 2, nextRequestId := 1, nextMatchId := 1 }

/-- Allocation body whose request_id 999 references no existing
request row. -/
def c4Body : AllocateBody :=
  { donor_id := 1, recipient_id := 2, organ_id := 1, request_id := 999
    organ_type := "KIDNEY" }

/-- Storage holding a single PENDING request. -/
def c5State : Storage :=
  { emptyStorage with
      organ_requests :=
        [{ id := 1, recipient_id := 2, organ_type := "KIDNEY", blood_group := "AB+"
           urgency_level := "CRITICAL", status := "PENDING", admin_note := none }]
      nextRequestId := 2 }

/-- Admin status update turning the PENDING request REJECTED. -/
def c5Step1 : Storage := updateRequestStatus c5State 1 "REJECTED" (some "not eligible")

/-- Admin status update turning the REJECTED request back to
PENDING. -/
def c5Step2 : Storage := updateRequestStatus c5Step1 1 "PENDING" none

/-- Admin status update making the revived request leave PENDING a
second time. -/
def c5Step3 : Storage := updateRequestStatus c5Step2 1 "APPROVED" none

/-- Claim C1: allocate on a donation that is not AVAILABLE (or a
request that is not PENDING) should return an InvalidState or
AlreadyAllocated error, create no new Match row and leave existing
Match rows unchanged.  The code performs no status check: at a state
whose only donation is already MATCHED with an existing Match row, the
call returns success and inserts a second Match row referencing the
same donation (the original Match row is still present). -/
theorem c1_allocate_on_matched_inserts_second_match :
    (allocate c1State c1Body).1 = AllocateResponse.success ∧
    ((allocate c1State c1Body).2.match_rows.filter (fun m => m.organ_id == 1)).length = 2 ∧
    { id := 1, donor_id := 1, recipient_id := 2, organ_id := 1, request_id := 1
      organ_type := "KIDNEY", status := "COMPLETED" } ∈ (allocate c1State c1Body).2.match_rows := by
  refine ⟨rfl, rfl, ?_⟩
  decide

/-- Claim C2: of two allocate calls racing on the same donation with
two different pending requests, exactly one should succeed and exactly
one Match row should reference that donation afterwards.  The storage
layer serializes the two transactions, and the code accepts both: both
calls return success and afterwards two Match rows reference donation
1. -/
theorem c2_racing_allocations_both_succeed :
    (allocate c2State c2BodyA).1 = AllocateResponse.success ∧
    (allocate (allocate c2State c2BodyA).2 c2BodyB).1 = AllocateResponse.success ∧
    (c2After.match_rows.filter (fun m => m.organ_id == 1)).length = 2 := by
  refine ⟨rfl, rfl, rfl⟩

/-- Claim C4: allocate referencing a nonexistent requestId should
return NotFound and perform no storage mutation.  The code never looks
the ids up: with request_id 999 absent from storage it returns success,
inserts a Match row referencing the nonexistent request, and still
flips the donation to MATCHED. -/
theorem c4_nonexistent_request_still_mutates :
    (allocate c4State c4Body).1 = AllocateResponse.success ∧
    (allocate c4State c4Body).2.match_rows =
      [{ id := 1, donor_id := 1, recipient_id := 2, organ_id := 1, request_id := 999
         organ_type := "KIDNEY", status := "COMPLETED" }] ∧
    (allocate c4State c4Body).2.organs =
      [{ id := 1, organ_type := "KIDNEY", blood_group := "O-", donor_id := 1
         availability_status := "MATCHED" }] := by
  refine ⟨rfl, rfl, rfl⟩

/-- Claim C5: a Request should leave PENDING at most once (and a
Donation become MATCHED at most once), preserved by every operation.
The admin status-update endpoint writes whatever status the body
carries without consulting the current one, so the trace
PENDING, REJECTED, PENDING, APPROVED is reachable: the request leaves
PENDING twice and re-enters a supposedly terminal state. -/
theorem c5_request_status_is_not_one_way :
    (findRequest c5State 1).map RequestRow.status = some "PENDING" ∧
    (findRequest c5Step1 1).map RequestRow.status = some "REJECTED" ∧
    (findRequest c5Step2 1).map RequestRow.status = some "PENDING" ∧
    (findRequest c5Step3 1).map RequestRow.status = some "APPROVED" := by
  refine ⟨rfl, rfl, rfl, rfl⟩

/-- Claim C6: intake should accept only enumerated organ types, blood
groups and urgency values, rejecting anything else with a
ValidationError and persisting nothing.  The intake routes validate
nothing: registering organ type SPLEEN with blood group ZZ, and
submitting a request with organ type TAIL, blood group QQ and urgency
EXTREME, both persist rows (with the AVAILABLE and PENDING column
defaults). -/
theorem c6_unknown_intake_values_persisted :
    (registerOrgan emptyStorage "SPLEEN" "ZZ" 7).2.organs =
      [{ id := 1, organ_type := "SPLEEN", blood_group := "ZZ", donor_id := 7
         availability_status := "AVAILABLE" }] ∧
    (submitRequest emptyStorage 9 "TAIL" "QQ" "EXTREME").2.organ_requests =
      [{ id := 1, recipient_id := 9, organ_type := "TAIL", blood_group := "QQ"
         urgency_level := "EXTREME", status := "PENDING", admin_note := none }] := by
  refine ⟨rfl, rfl⟩

/-- Allocation body used against the empty storage: neither organ 1
nor request 1 exists. -/
def c3Body : AllocateBody :=
  { donor_id := 1, recipient_id := 2, organ_id := 1, request_id := 1
    organ_type := "KIDNEY" }

/-- Claim C3, counterexample: at the empty storage the allocate call
referencing organ 1 and request 1 succeeds and creates a Match row, yet
no donation with id 1 is MATCHED afterwards (none exists), so a
successful allocate does not guarantee the three effects together and a
Match row is observable without its MATCHED donation. -/
theorem c3_success_without_matched_donation :
    (allocate emptyStorage c3Body).1 = AllocateResponse.success ∧
    (¬ ∃ o ∈ (allocate emptyStorage c3Body).2.organs,
        o.id = c3Body.organ_id ∧ o.availability_status = "MATCHED") ∧
    (∃ m ∈ (allocate emptyStorage c3Body).2.match_rows,
        m.organ_id = c3Body.organ_id ∧ m.request_id = c3Body.request_id) := by
  refine ⟨rfl, ?_, ?_⟩ <;> decide

/-- Claim C3 (amended): for every allocate call whose organ_id and
request_id reference existing rows, the call succeeds and afterwards
that donation is MATCHED, that request is APPROVED carrying the
administrative note, and a Match row referencing both exists; the three
writes happen inside the single atomic db.transaction modelled as one
state-transforming function. -/
theorem c3_allocate_effects (s : Storage) (b : AllocateBody)
    (ho : ∃ o ∈ s.organs, o.id = b.organ_id)
    (hr : ∃ r ∈ s.organ_requests, r.id = b.request_id) :
    (allocate s b).1 = AllocateResponse.success ∧
    (∃ o ∈ (allocate s b).2.organs,
        o.id = b.organ_id ∧ o.availability_status = "MATCHED") ∧
    (∃ r ∈ (allocate s b).2.organ_requests,
        r.id = b.request_id ∧ r.status = "APPROVED" ∧
        r.admin_note = some "Matched with compatible donor") ∧
    (∃ m ∈ (allocate s b).2.match_rows,
        m.organ_id = b.organ_id ∧ m.request_id = b.request_id) := by
  obtain ⟨o, hom, hoid⟩ := ho
  obtain ⟨r, hrm, hrid⟩ := hr
  refine ⟨rfl, ?_, ?_, ?_⟩
  · refine ⟨{ o with availability_status := "MATCHED" }, ?_, hoid, rfl⟩
    simp only [allocate]
    exact List.mem_map.mpr ⟨o, hom, by simp [hoid]⟩
  · refine ⟨{ r with status := "APPROVED", admin_note := some "Matched with compatible donor" }, ?_, hrid, rfl, rfl⟩
    simp only [allocate]
    exact List.mem_map.mpr ⟨r, hrm, by simp [hrid]⟩
  · refine ⟨⟨s.nextMatchId, b.donor_id, b.recipient_id, b.organ_id, b.request_id,
      b.organ_type, "COMPLETED"⟩, ?_, rfl, rfl⟩
    simp [allocate]

/-- Claim C3 witness: the amended theorem applied at the concrete state
holding the AVAILABLE donation 1 and the PENDING request 1. -/
theorem c3_allocate_effects_witness :
    (allocate c2State c2BodyA).1 = AllocateResponse.success ∧
    (∃ o ∈ (allocate c2State c2BodyA).2.organs,
        o.id = c2BodyA.organ_id ∧ o.availability_status = "MATCHED") ∧
    (∃ r ∈ (allocate c2State c2BodyA).2.organ_requests,
        r.id = c2BodyA.request_id ∧ r.status = "APPROVED" ∧
        r.admin_note = some "Matched with compatible donor") ∧
    (∃ m ∈ (allocate c2State c2BodyA).2.match_rows,
        m.organ_id = c2BodyA.organ_id ∧ m.request_id = c2BodyA.request_id) :=
  c3_allocate_effects c2State c2BodyA (by decide) (by decide)

/-- Claim C8: the compatibility table is a pure total function on blood
group strings: each of the eight valid ABO/Rh groups maps to a fixed
non-empty list, O- maps to all eight groups, AB+ maps to exactly the
singleton AB+, and every string outside the eight groups maps to the
empty list rather than failing. -/
theorem c8_bloodCompatibility_total :
    (∀ g ∈ validBloodGroups, bloodCompatibility g ≠ []) ∧
    bloodCompatibility "O-" = validBloodGroups ∧
    bloodCompatibility "AB+" = ["AB+"] ∧
    (∀ g, g ∉ validBloodGroups → bloodCompatibility g = []) := by
  refine ⟨?_, rfl, rfl, ?_⟩
  · intro g hg
    fin_cases hg <;> decide
  · intro g hg
    simp only [validBloodGroups, List.mem_cons, List.not_mem_nil, or_false, not_or] at hg
    obtain ⟨h1, h2, h3, h4, h5, h6, h7, h8⟩ := hg
    simp [bloodCompatibility, h1, h2, h3, h4, h5, h6, h7, h8]

/-- Claim C8 witness: the theorem applied to the valid group A+ and to
the invalid string XX. -/
theorem c8_bloodCompatibility_total_witness :
    bloodCompatibility "A+" ≠ [] ∧ bloodCompatibility "XX" = [] :=
  ⟨c8_bloodCompatibility_total.1 "A+" (by decide),
   c8_bloodCompatibility_total.2.2.2 "XX" (by decide)⟩

/-- Every row produced by the availableOrgans query stems from an organ
row of the queried type whose availability_status is AVAILABLE, and its
donor_blood_group is the blood_group of a user row matched by the
join. -/
theorem mem_availableOrgans {s : Storage} {t : String} {x : SuggestedOrgan}
    (hx : x ∈ availableOrgans s t) :
    x.organ ∈ s.organs ∧ x.organ.organ_type = t ∧
      x.organ.availability_status = "AVAILABLE" := by
  simp only [availableOrgans, List.mem_filterMap] at hx
  obtain ⟨o, ho, hfo⟩ := hx
  unfold joinDonor at hfo
  cases hu : s.users.find? (fun u => u.id == o.donor_id) with
  | none => rw [hu] at hfo; exact Option.noConfusion hfo
  | some u =>
      rw [hu] at hfo
      dsimp only at hfo
      by_cases hc : (o.organ_type == t && o.availability_status == "AVAILABLE") = true
      · rw [if_pos hc] at hfo
        rw [Bool.and_eq_true] at hc
        obtain ⟨h1, h2⟩ := hc
        obtain rfl := Option.some.inj hfo
        exact ⟨ho, eq_of_beq h1, eq_of_beq h2⟩
      · rw [if_neg hc] at hfo
        exact Option.noConfusion hfo

/-- Claim C7: every donation returned by suggest for a request has the
organ type of that request, is AVAILABLE (hence never MATCHED), and has
a joined donor blood group whose compatible-recipient list contains the
blood group of the request. -/
theorem c7_suggest_only_compatible_available (s : Storage) (rid : Nat)
    (req : RequestRow) (xs : List SuggestedOrgan)
    (hreq : findRequest s rid = some req) (hxs : suggest s rid = Except.ok xs) :
    ∀ x ∈ xs, x.organ.organ_type = req.organ_type ∧
      x.organ.availability_status = "AVAILABLE" ∧
      x.organ.availability_status ≠ "MATCHED" ∧
      req.blood_group ∈ bloodCompatibility x.donor_blood_group := by
  intro x hx
  simp only [suggest, hreq] at hxs
  obtain rfl := Except.ok.inj hxs
  obtain ⟨hmem, hp⟩ := List.mem_filter.mp hx
  obtain ⟨hor, hty, hav⟩ := mem_availableOrgans hmem
  refine ⟨hty, hav, ?_, ?_⟩
  · rw [hav]; decide
  · simpa using hp

/-- Storage realizing the spec scenario of a KIDNEY donation from an
O- donor together with a PENDING KIDNEY request from an AB+
recipient. -/
def c7State : Storage :=
  { users := [{ id := 1, name := "John Doe", blood_group := "O-", role := "DONOR" }]
    organs := [{ id := 1, organ_type := "KIDNEY", blood_group := "O-", donor_id := 1
                 availability_status := "AVAILABLE" }]
    organ_requests :=
      [{ id := 1, recipient_id := 2, organ_type := "KIDNEY", blood_group := "AB+"
         urgency_level := "CRITICAL", status := "PENDING", admin_note := none }]
    match_rows := [], nextOrganId := 2, nextRequestId := 2, nextMatchId := 1 }

/-- The request row stored in c7State. -/
def c7Req : RequestRow :=
  { id := 1, recipient_id := 2, organ_type := "KIDNEY", blood_group := "AB+"
    urgency_level := "CRITICAL", status := "PENDING", admin_note := none }

/-- The suggestion row returned by suggest on c7State. -/
def c7Suggestion : SuggestedOrgan :=
  { organ := { id := 1, organ_type := "KIDNEY", blood_group := "O-", donor_id := 1
               availability_status := "AVAILABLE" }
    donor_name := "John Doe", donor_blood_group := "O-" }

/-- Claim C7 witness: the theorem applied at c7State, where suggest
returns exactly the O- kidney donation for the AB+ request, evaluated
at that returned row. -/
theorem c7_suggest_only_compatible_available_witness :
    c7Suggestion.organ.organ_type = c7Req.organ_type ∧
    c7Suggestion.organ.availability_status = "AVAILABLE" ∧
    c7Suggestion.organ.availability_status ≠ "MATCHED" ∧
    c7Req.blood_group ∈ bloodCompatibility c7Suggestion.donor_blood_group :=
  c7_suggest_only_compatible_available c7State 1 c7Req [c7Suggestion] rfl rfl
    c7Suggestion (by decide)

/-- Claim C9: suggest fails with the 404 Request-not-found error
exactly when no request row carries the given id, and when the request
exists but the compatibility filter keeps no available donation the
call returns the empty list as a success value, distinguishable from
the error case. -/
theorem c9_suggest_notfound_vs_empty (s : Storage) (rid : Nat) :
    ((∃ e, suggest s rid = Except.error e) ↔ findRequest s rid = none) ∧
    (∀ req, findRequest s rid = some req →
      (availableOrgans s req.organ_type).filter
          (fun organ => (bloodCompatibility organ.donor_blood_group).contains req.blood_group)
        = [] →
      suggest s rid = Except.ok []) := by
  constructor
  · constructor
    · rintro ⟨e, he⟩
      cases h : findRequest s rid with
      | none => rfl
      | some req => simp [suggest, h] at he
    · intro h
      exact ⟨"Request not found", by simp [suggest, h]⟩
  · intro req h hempty
    simp only [suggest, h]
    rw [hempty]

/-- Storage realizing the spec exclusion scenario: an A+ donor organ
and a PENDING request from a B- recipient, which A+ cannot supply. -/
def c9State : Storage :=
  { users := [{ id := 1, name := "Jane Smith", blood_group := "A+", role := "DONOR" }]
    organs := [{ id := 1, organ_type := "KIDNEY", blood_group := "A+", donor_id := 1
                 availability_status := "AVAILABLE" }]
    organ_requests :=
      [{ id := 1, recipient_id := 2, organ_type := "KIDNEY", blood_group := "B-"
         urgency_level := "MEDIUM", status := "PENDING", admin_note := none }]
    match_rows := [], nextOrganId := 2, nextRequestId := 2, nextMatchId := 1 }

/-- The request row stored in c9State. -/
def c9Req : RequestRow :=
  { id := 1, recipient_id := 2, organ_type := "KIDNEY", blood_group := "B-"
    urgency_level := "MEDIUM", status := "PENDING", admin_note := none }

/-- Claim C9 witness: the theorem applied at c9State, where the request
exists but no donation is compatible, yields the empty success result;
applied at the empty storage it yields the 404 error. -/
theorem c9_suggest_notfound_vs_empty_witness :
    suggest c9State 1 = Except.ok [] ∧
    (∃ e, suggest emptyStorage 3 = Except.error e) :=
  ⟨(c9_suggest_notfound_vs_empty c9State 1).2 c9Req rfl rfl,
   (c9_suggest_notfound_vs_empty emptyStorage 3).1.mpr rfl⟩

/-- Storage transformer rewriting the blood_group column of every organ
row by an arbitrary function of the row; every other column and every
other table is untouched. -/
def setOrganBloodGroups (s : Storage) (f : OrganRow → String) : Storage :=
  { s with organs := s.organs.map fun o => { o with blood_group := f o } }

/-- Rewriting the blood_group column of an organ row commutes with the
join step: the joined row is unchanged except for the organ column
carrying the rewritten blood_group. -/
theorem joinDonor_setBG (users : List UserRow) (t : String) (f : OrganRow → String)
    (o : OrganRow) :
    joinDonor users t { o with blood_group := f o } =
      (joinDonor users t o).map
        (fun x => { x with organ := { x.organ with blood_group := f x.organ } }) := by
  obtain ⟨oid, oty, obg, odid, ost⟩ := o
  unfold joinDonor
  dsimp only
  cases hu : users.find? (fun u => u.id == odid) with
  | none => rfl
  | some u =>
      dsimp only
      by_cases hc : (oty == t && ost == "AVAILABLE") = true
      · rw [if_pos hc, if_pos hc]
        rfl
      · rw [if_neg hc, if_neg hc]
        rfl

/-- The organ ids surviving the type, availability and compatibility
filters do not depend on the blood_group column of the organ rows. -/
theorem filter_map_organ_ids (users : List UserRow) (t bg : String)
    (f : OrganRow → String) (l : List OrganRow) :
    (((l.map fun o => { o with blood_group := f o }).filterMap (joinDonor users t)).filter
        (fun x => (bloodCompatibility x.donor_blood_group).contains bg)).map
      (fun x => x.organ.id) =
    ((l.filterMap (joinDonor users t)).filter
        (fun x => (bloodCompatibility x.donor_blood_group).contains bg)).map
      (fun x => x.organ.id) := by
  induction l with
  | nil => rfl
  | cons o l ih =>
      simp only [List.map_cons, List.filterMap_cons]
      rw [joinDonor_setBG]
      cases joinDonor users t o with
      | none => exact ih
      | some x =>
          simp only [Option.map_some']
          simp only [List.filter_cons]
          by_cases hp : ((bloodCompatibility x.donor_blood_group).contains bg) = true
          · simp only [hp, if_true, List.map_cons]
            rw [ih]
          · simp only [hp, if_false]
            exact ih

/-- Claim C10: the suggestion result depends only on the donor user
blood group joined as donor_blood_group; rewriting the blood_group
column of the organ rows arbitrarily leaves the error case and the ids
of the suggested organs unchanged. -/
theorem c10_suggest_ignores_organ_blood_group (s : Storage) (f : OrganRow → String)
    (rid : Nat) :
    (suggest (setOrganBloodGroups s f) rid).map (List.map fun x => x.organ.id) =
      (suggest s rid).map (List.map fun x => x.organ.id) := by
  have hfind : findRequest (setOrganBloodGroups s f) rid = findRequest s rid := rfl
  cases h : findRequest s rid with
  | none =>
      have h' : findRequest (setOrganBloodGroups s f) rid = none := hfind.trans h
      simp [suggest, h, h']
  | some req =>
      have h' : findRequest (setOrganBloodGroups s f) rid = some req := hfind.trans h
      simp only [suggest, h, h', Except.map]
      exact congrArg Except.ok
        (filter_map_organ_ids s.users req.organ_type req.blood_group f s.organs)

end LifeStream
